import Mathlib

/-!
Shallow embedding of `src/safemodel/classifiers/safekeras.py` (module-level
snapshot comparators and the `Safe_KerasModel` release-evaluation methods),
together with theorems settling the frozen claims about that code.

Modelling choices:
* A keras model, as far as the comparators inspect it, is a `ModelSnapshot`:
  an ordered list of layers, each carrying a config dictionary
  (`get_config()`, modelled as an association list with distinct keys) and a
  list of weight groups (`get_weights()`, each group a list of rationals
  standing for a numeric array; `np.array_equal` becomes list equality).
* The external accountant `compute_dp_sgd_privacy` is an explicit function
  parameter (`Accountant`); its first tuple component (epsilon) is the value
  the source uses, so the parameter returns that component directly.
* Mutable attributes of a `Safe_KerasModel` instance that the evaluated
  methods read or write are gathered in `ModelState`.  The file
  `tfsaves/fit_model.tf` written by `fit` is the `fit_snapshot` field
  (`none` when loading would fail); the snapshot written by `posthoc_check`
  is passed as the `requested` argument and always loads back.
* Python `print` output that a claim refers to is threaded explicitly
  (`CheckEpsilonResult.printed`); other prints are not observable here.
-/

/-- One entry produced by `dictdiffer.diff` with `expand=True`. -/
inductive DiffEntry where
  | change (key oldv newv : String)
  | addEntry (key v : String)
  | removeEntry (key v : String)
deriving DecidableEq

/-- Dictionary lookup on an association list (Python dict indexing). -/
def dict_lookup (d : List (String × String)) (k : String) : Option String :=
  match d with
  | [] => none
  | kv :: rest => if kv.1 = k then some kv.2 else dict_lookup rest k

/-- `dictdiffer.diff(d1, d2, expand=True)` on flat string-valued dicts:
one `change` per key present in both with different values, one
`removeEntry` per key only in `d1`, one `addEntry` per key only in `d2`. -/
def dictdiff (d1 d2 : List (String × String)) : List DiffEntry :=
  (d1.filterMap fun kv =>
    match dict_lookup d2 kv.1 with
    | some v2 => if kv.2 ≠ v2 then some (DiffEntry.change kv.1 kv.2 v2) else none
    | none => some (DiffEntry.removeEntry kv.1 kv.2)) ++
  (d2.filterMap fun kv =>
    match dict_lookup d1 kv.1 with
    | some _ => none
    | none => some (DiffEntry.addEntry kv.1 kv.2))

/-- Rendering of one diff entry inside the `same_configs` message.  A
`change` entry follows source lines 37-38, which write
"changed from \x7bmatch[i][2][1]\x7d to \x7bmatch[i][2][0]\x7d", i.e. new
value first, old value second.  For non-change entries the source prints
the raw Python tuple; we render it canonically without quotes. -/
def render_entry : DiffEntry → String
  | DiffEntry.change key oldv newv =>
      "parameter " ++ key ++ " changed from " ++ newv ++ " to " ++ oldv ++
      " after model was fitted.\n"
  | DiffEntry.addEntry key v =>
      "(add, , [(" ++ key ++ ", " ++ v ++ ")])"
  | DiffEntry.removeEntry key v =>
      "(remove, , [(" ++ key ++ ", " ++ v ++ ")])"

/-- One layer of a captured model: its config dict and its weight groups. -/
structure Layer where
  config : List (String × String)
  weights : List (List ℚ)
deriving DecidableEq

/-- A model as the comparators see it: an ordered list of layers. -/
structure ModelSnapshot where
  layers : List Layer
deriving DecidableEq

/-- Loop body of `same_configs` (source lines 28-41), recursing over the
two layer lists in step with the running layer index. -/
def same_configs_loop : Nat → List Layer → List Layer → Bool × String
  | _, [], _ => (true, "configurations match")
  | _, _ :: _, [] => (true, "configurations match")
  | i, l1 :: r1, l2 :: r2 =>
    let ms := dictdiff l1.config l2.config
    if 0 < ms.length then
      (false, "Layer " ++ toString i ++ " configs differ in " ++
        toString ms.length ++ " places:\n" ++ String.join (ms.map render_entry))
    else
      same_configs_loop (i + 1) r1 r2

/-- `same_configs` (source lines 25-43). -/
def same_configs (m1 m2 : ModelSnapshot) : Bool × String :=
  if m1.layers.length ≠ m2.layers.length then
    (false, "different numbers of layers")
  else
    same_configs_loop 0 m1.layers m2.layers

/-- Inner dimension loop of `same_weights` (source lines 55-60).  Source
line 56 reads `m1d = m2layer[dim]`: both compared values come from the
SECOND model's layer, so `m1d` and `m2d` are the same array and the
comparison can never fail.  The first list is only walked for its length. -/
def same_weights_dims (layer : Nat) : Nat → List (List ℚ) → List (List ℚ) →
    Option (Bool × String)
  | _, [], _ => none
  | _, _ :: _, [] => none
  | dim, _ :: r1, w2 :: r2 =>
    let m1d := w2
    let m2d := w2
    if m1d ≠ m2d then
      some (false, "dimension " ++ toString dim ++ " of layer " ++
        toString layer ++ " differs")
    else
      same_weights_dims layer (dim + 1) r1 r2

/-- Layer loop of `same_weights` (source lines 50-60). -/
def same_weights_loop : Nat → List Layer → List Layer → Bool × String
  | _, [], _ => (true, "weights match")
  | _, _ :: _, [] => (true, "weights match")
  | layer, l1 :: r1, l2 :: r2 =>
    let m1layer := l1.weights
    let m2layer := l2.weights
    if m1layer.length ≠ m2layer.length then
      (false, "layer " ++ toString layer ++ " not the same size.")
    else
      match same_weights_dims layer 0 m1layer m2layer with
      | some res => res
      | none => same_weights_loop (layer + 1) r1 r2

/-- `same_weights` (source lines 46-61), including the `m1d = m2layer[dim]`
slip embedded in `same_weights_dims`. -/
def same_weights (m1 m2 : ModelSnapshot) : Bool × String :=
  if m1.layers.length ≠ m2.layers.length then
    (false, "different numbers of layers")
  else
    same_weights_loop 0 m1.layers m2.layers

/-- `test_checkpoint_equality` (source lines 64-91).  The two checkpoint
paths are replaced by the load results (`none` = `load_model` raised).  The
source initialises `same = True`, appends the comparator messages when a
comparison fails, and returns `same` without ever assigning it `False`. -/
def test_checkpoint_equality (v1 v2 : Option ModelSnapshot) : Bool × String :=
  match v1 with
  | none => (false, "Error re-loading  model from checkpoint v1")
  | some model1 =>
    match v2 with
    | none => (false, "Error re-loading  model from checkpoint v2")
    | some model2 =>
      let same := true
      let msg := ""
      let sc := same_configs model1 model2
      let msg1 := if sc.1 = false then msg ++ sc.2 else msg
      let sw := same_weights model1 model2
      let msg2 := if sw.1 = false then msg1 ++ sw.2 else msg1
      (same, msg2)

/-- The external accountant `compute_dp_sgd_privacy` restricted to the
epsilon component the source uses: arguments are
(n, batch_size, noise_multiplier, epochs, delta). -/
abbrev Accountant : Type := Nat → Nat → ℚ → Nat → ℚ → ℚ

/-- The attributes of a `Safe_KerasModel` instance that the evaluated
methods read or write. -/
structure ModelState where
  optimizer : String
  opt_has_flag : Bool
  opt_flag_value : Bool
  saved_was_dpused : Bool
  saved_reason : String
  saved_epsilon : ℚ
  current_epsilon : ℚ
  noise_multiplier : ℚ
  delta : ℚ
  min_epsilon : ℚ
  num_samples : Nat
  batch_size : Nat
  epochs : Nat
  fit_snapshot : Option ModelSnapshot
deriving DecidableEq

/-- `Safe_KerasModel.dp_epsilon_met` (source lines 152-168): applies the
accountant and reports `ok` exactly when the achieved epsilon is strictly
below `min_epsilon`, returning the epsilon as second component. -/
def dp_epsilon_met (acct : Accountant) (st : ModelState)
    (num_examples batch_size epochs : Nat) : Bool × ℚ :=
  let privacy := acct num_examples batch_size st.noise_multiplier epochs st.delta
  (if privacy < st.min_epsilon then true else false, privacy)

/-- Result of `check_epsilon`: the returned pair, the updated instance
state (`self.current_epsilon` is assigned), and the lines printed. -/
structure CheckEpsilonResult where
  ret : Bool × String
  st : ModelState
  printed : List String
deriving DecidableEq

/-- `Safe_KerasModel.check_epsilon` (source lines 170-203).  A zero
`batch_size` is replaced by 1 (with a printed diagnostic, source lines
177-179) before the accountant runs; the final `print(msg)` of line 202 is
the last element of `printed`. -/
def check_epsilon (acct : Accountant) (st : ModelState)
    (num_samples batch_size epochs : Nat) : CheckEpsilonResult :=
  let printed0 : List String :=
    if batch_size = 0 then ["Division by zero setting batch_size =1"] else []
  let bs := if batch_size = 0 then 1 else batch_size
  let r := dp_epsilon_met acct st num_samples bs epochs
  let st2 := { st with current_epsilon := r.2 }
  let msg :=
    if r.1 then
      "The requirements for DP are met, current epsilon is: " ++ toString r.2 ++
      ".Calculated from the parameters:  Num Samples = " ++ toString num_samples ++
      ", batch_size = " ++ toString bs ++ ", epochs = " ++ toString epochs ++ ".\n"
    else
      "The requirements for DP are not met, current epsilon is: " ++
      toString r.2 ++
      ".\nTo attain recommended DP the following parameters can be changed:  Num Samples = " ++
      toString num_samples ++ ",batch_size = " ++ toString bs ++ ",epochs = " ++
      toString epochs ++ ".\n"
  { ret := (r.1, msg), st := st2, printed := printed0 ++ [msg] }

/-- The reason string of source lines 235-238 (concatenated literal). -/
def dp_confirmed_reason : String :=
  " value of optimizer._was_dp_gradients_called is True, so DP variant of optimizer has been run"

/-- `Safe_KerasModel.check_DP_used` (source lines 222-244), over the two
booleans modelling presence and value of the optimizer attribute
`_was_dp_gradients_called`. -/
def check_DP_used (st : ModelState) : Bool × String :=
  if st.opt_has_flag = false then
    (false, "optimizer does not contain key _was_dp_gradients_called so is not DP.")
  else if st.opt_flag_value = false then
    (false, "optimizer has been changed but fit() has not been rerun.")
  else
    (true, dp_confirmed_reason)

/-- The allow-list of source lines 249-253. -/
def allowed_optimizers : List String :=
  ["tensorflow_privacy.DPKerasAdagradOptimizer",
   "tensorflow_privacy.DPKerasAdamOptimizer",
   "tensorflow_privacy.DPKerasSGDOptimizer"]

/-- `Safe_KerasModel.check_optimizer_allowed` (source lines 246-262).
The source is annotated `-> tuple[bool, str]` but line 262 returns
`(reason, disclosive)`: the reason string FIRST and the boolean second,
with the boolean meaning disclosive (True = not allowed).  The embedding
keeps that actual return shape. -/
def check_optimizer_allowed (st : ModelState) : String × Bool :=
  if st.optimizer ∈ allowed_optimizers then
    ("optimizer " ++ st.optimizer ++ " allowed", false)
  else
    ("optimizer " ++ st.optimizer ++ " is not allowed", true)

/-- Message of source lines 404-408. -/
def warn_msg (eps : ℚ) : String :=
  "WARNING: epsilon " ++ toString eps ++
  " is above normal max recommended value.\nDiscussion with researcher needed.\n"

/-- Message of source lines 415-419 (the source misspells value as vale). -/
def allow_msg (eps : ℚ) : String :=
  "Recommendation: Allow release.\nEpsilon vale of model " ++ toString eps ++
  " is below normal max recommended value.\n"

/-- Final budget step of `posthoc_check` (source lines 397-421): rerun
`dp_epsilon_met` on the recorded sample count and epochs with the given
batch size and turn the outcome into the returned (message, disclosive)
pair. -/
def budget_step (acct : Accountant) (st : ModelState) (batch : Nat) :
    String × Bool :=
  let em := dp_epsilon_met acct st st.num_samples batch st.epochs
  if em.1 = false then (warn_msg em.2, true) else (allow_msg em.2, false)

/-- `Safe_KerasModel.posthoc_check` (source lines 361-421).  `requested` is
the freshly saved pre-release snapshot (source line 368); the stored
post-fit checkpoint is `st.fit_snapshot`.  At the allow-list gate the
source unpacks `allowed, allowedmessage = check_optimizer_allowed(...)`, so
`allowed` is the REASON STRING and `if not allowed` tests string
truthiness, i.e. emptiness; were that branch taken, Python would return the
disclosive flag in the message position, rendered here as True/False. -/
def posthoc_check (acct : Accountant) (st : ModelState)
    (requested : ModelSnapshot) : String × Bool :=
  let r := test_checkpoint_equality st.fit_snapshot (some requested)
  if r.1 = false then (r.2, true)
  else
    let a := check_optimizer_allowed st
    if a.1 = "" then ((if a.2 then "True" else "False"), true)
    else
      let d := check_DP_used st
      if d.1 = false then (d.2, true)
      else if d.1 ≠ st.saved_was_dpused ∨ d.2 ≠ st.saved_reason ∨
          st.saved_epsilon ≠ st.current_epsilon then
        ("Optimizer config has been changed since training.", true)
      else
        budget_step acct st st.batch_size

/-- The attributes `Safe_KerasModel.load` touches (source lines 477-491). -/
structure LoadState where
  model_load_file : String
  model_save_file : String
deriving DecidableEq

/-- Fuel-indexed run of the `while` loop of source lines 487-490: while
`model_load_file` equals "undefined", read one input line and assign it to
`model_save_file` (exactly as the source does).  `none` means the fuel ran
out with the loop condition still true. -/
def load_loop (inputs : Nat → String) : Nat → Nat → LoadState → Option LoadState
  | 0, _, st => if st.model_load_file = "undefined" then none else some st
  | fuel + 1, idx, st =>
    if st.model_load_file = "undefined" then
      load_loop inputs fuel (idx + 1) { st with model_save_file := inputs idx }
    else
      some st

/-- Entry of `Safe_KerasModel.load` up to the end of its prompt loop:
assign `model_load_file := name` (source line 486), then run the loop.  The
default argument for `name` in the source is "undefined". -/
def load (name : String) (st : LoadState) (inputs : Nat → String)
    (fuel : Nat) : Option LoadState :=
  load_loop inputs fuel 0 { st with model_load_file := name }

/-! Executable substring test, used to state that a produced message does
not mention some content. -/

/-- `starts_with s pat` is true when `pat` is a prefix of `s`. -/
def starts_with : List Char → List Char → Bool
  | _, [] => true
  | [], _ :: _ => false
  | a :: as, p :: ps => (if a = p then true else false) && starts_with as ps

/-- `has_sub_list pat s` is true when `pat` occurs inside `s`. -/
def has_sub_list (pat : List Char) : List Char → Bool
  | [] => starts_with [] pat
  | a :: as => starts_with (a :: as) pat || has_sub_list pat as

/-- `contains_sub s pat` is true when `pat` occurs inside `s`. -/
def contains_sub (s pat : String) : Bool := has_sub_list pat.data s.data

/-! Concrete fixtures used by the settled claims: tiny snapshots and
instance states (field values follow the constructor defaults of source
lines 123-134 where relevant), plus simple accountants. -/

/-- A one-layer snapshot: one config key, one weight group. -/
def wsnapA : ModelSnapshot := ⟨[⟨[("units", "1")], [[0]]⟩]⟩

/-- Same as `wsnapA` except a single weight element is 1 instead of 0. -/
def wsnapB : ModelSnapshot := ⟨[⟨[("units", "1")], [[1]]⟩]⟩

/-- Same as `wsnapA` except the value of the config key differs. -/
def csnapB : ModelSnapshot := ⟨[⟨[("units", "2")], [[0]]⟩]⟩

/-- A two-layer snapshot. -/
def snap2 : ModelSnapshot :=
  ⟨[⟨[("units", "1")], [[0]]⟩, ⟨[("units", "1")], [[0]]⟩]⟩

/-- A three-layer snapshot. -/
def snap3 : ModelSnapshot :=
  ⟨[⟨[("units", "1")], [[0]]⟩, ⟨[("units", "1")], [[0]]⟩,
    ⟨[("units", "1")], [[0]]⟩]⟩

/-- An accountant that reports epsilon 1 whatever the parameters. -/
def acctC : Accountant := fun _ _ _ _ _ => 1

/-- An accountant that reports epsilon 10 whatever the parameters. -/
def acct10 : Accountant := fun _ _ _ _ _ => 10

/-- A state as left by a completed DP fit: DP optimizer bound, its
gradient flag present and true, saved provenance consistent with the live
provenance, budget numbers at the constructor defaults, and the post-fit
checkpoint stored. -/
def stC1 : ModelState :=
  { optimizer := "tensorflow_privacy.DPKerasSGDOptimizer"
    opt_has_flag := true
    opt_flag_value := true
    saved_was_dpused := true
    saved_reason := dp_confirmed_reason
    saved_epsilon := 1
    current_epsilon := 1
    noise_multiplier := 1/2
    delta := 1/100000
    min_epsilon := 10
    num_samples := 250
    batch_size := 25
    epochs := 20
    fit_snapshot := some wsnapA }

/-- `stC1` with a plain (non-allow-listed) SGD identity bound. -/
def stSGD : ModelState := { stC1 with optimizer := "SGD" }

/-- `stC1` with a recorded batch size of zero. -/
def stC9 : ModelState := { stC1 with batch_size := 0 }

/-! Helper lemmas. -/

/-- When both checkpoints load, `test_checkpoint_equality` reports `True`
in its first component: the source never assigns `same = False`. -/
theorem test_checkpoint_equality_fst (a b : ModelSnapshot) :
    (test_checkpoint_equality (some a) (some b)).1 = true := rfl

/-- Both reason strings built by `check_optimizer_allowed` are nonempty. -/
theorem check_optimizer_allowed_fst_ne_empty (st : ModelState) :
    (check_optimizer_allowed st).1 ≠ "" := by
  have h10 : ("optimizer ").length = 10 := rfl
  unfold check_optimizer_allowed
  split
  · intro h
    have h2 := congrArg String.length h
    rw [String.length_append, String.length_append, h10] at h2
    simp only [String.length_empty] at h2
    omega
  · intro h
    have h2 := congrArg String.length h
    rw [String.length_append, String.length_append, h10] at h2
    simp only [String.length_empty] at h2
    omega

/-- On a dict whose keys are distinct, lookup of a stored key returns the
stored value. -/
theorem dict_lookup_self (c : List (String × String))
    (h : (c.map Prod.fst).Nodup) :
    ∀ kv ∈ c, dict_lookup c kv.1 = some kv.2 := by
  induction c with
  | nil => intro kv hkv; cases hkv
  | cons a rest ih =>
    intro kv hkv
    rw [List.map_cons, List.nodup_cons] at h
    rcases List.mem_cons.mp hkv with heq | hmem
    · subst heq
      simp [dict_lookup]
    · have hne : a.1 ≠ kv.1 := by
        intro hcontra
        exact h.1 (hcontra ▸ List.mem_map_of_mem Prod.fst hmem)
      unfold dict_lookup
      rw [if_neg hne]
      exact ih h.2 kv hmem

/-- Diffing a distinct-keyed dict against itself yields no entries. -/
theorem dictdiff_self (c : List (String × String))
    (h : (c.map Prod.fst).Nodup) : dictdiff c c = [] := by
  unfold dictdiff
  rw [List.append_eq_nil]
  constructor
  · rw [List.filterMap_eq_nil_iff]
    intro kv hkv
    rw [dict_lookup_self c h kv hkv]
    simp
  · rw [List.filterMap_eq_nil_iff]
    intro kv hkv
    rw [dict_lookup_self c h kv hkv]

/-- The config loop on a layer list against itself reports a match, given
distinct keys per layer config. -/
theorem same_configs_loop_self (ls : List Layer)
    (h : ∀ l ∈ ls, ((l.config.map Prod.fst).Nodup)) :
    ∀ i : Nat, same_configs_loop i ls ls = (true, "configurations match") := by
  induction ls with
  | nil => intro i; rfl
  | cons a rest ih =>
    intro i
    have hd : dictdiff a.config a.config = [] :=
      dictdiff_self _ (h a (List.mem_cons_self a rest))
    unfold same_configs_loop
    rw [hd]
    simp only [List.length_nil, Nat.lt_irrefl, if_false]
    exact ih (fun l hl => h l (List.mem_cons_of_mem a hl)) (i + 1)

/-- The dimension loop of `same_weights` can never report a difference:
it compares an array with itself. -/
theorem same_weights_dims_none (layer : Nat) :
    ∀ (d : Nat) (r1 r2 : List (List ℚ)),
      same_weights_dims layer d r1 r2 = none := by
  intro d r1
  induction r1 generalizing d with
  | nil => intro r2; rfl
  | cons a r1 ih =>
    intro r2
    cases r2 with
    | nil => rfl
    | cons w2 r2 =>
      unfold same_weights_dims
      simp only [ne_eq, not_true_eq_false, if_false]
      exact ih (d + 1) r2

/-- The layer loop of `same_weights` on a list against itself. -/
theorem same_weights_loop_self (ls : List Layer) :
    ∀ i : Nat, same_weights_loop i ls ls = (true, "weights match") := by
  induction ls with
  | nil => intro i; rfl
  | cons a rest ih =>
    intro i
    unfold same_weights_loop
    rw [if_neg (by simp), same_weights_dims_none]
    exact ih (i + 1)

/-- The `while` loop of `load` never exits once `model_load_file` is
"undefined": its body only assigns `model_save_file`. -/
theorem load_loop_stuck (inputs : Nat → String) :
    ∀ (fuel idx : Nat) (st : LoadState),
      st.model_load_file = "undefined" → load_loop inputs fuel idx st = none := by
  intro fuel
  induction fuel with
  | zero => intro idx st h; simp [load_loop, h]
  | succ n ih =>
    intro idx st h
    simp only [load_loop, h, if_true]
    exact ih (idx + 1) _ rfl

/-! Claim theorems. -/

/-- C1: the claim says any config or weight mismatch between the stored
post-fit and fresh pre-release snapshots yields a blocked verdict with the
comparator report as rationale.  The code contradicts this:
`test_checkpoint_equality` never assigns `same = False`, so with a
post-fit snapshot `wsnapA` and a tampered pre-release snapshot (config
changed in `csnapB`, a single weight changed in `wsnapB`) the integrity
gate passes and `posthoc_check` returns the allow verdict. -/
theorem posthoc_misses_tampering :
    (same_configs wsnapA csnapB).1 = false ∧
    (test_checkpoint_equality (some wsnapA) (some csnapB)).1 = true ∧
    wsnapA ≠ wsnapB ∧
    posthoc_check acctC stC1 wsnapB = (allow_msg 1, false) := by
  decide

/-- C2: the claim says two snapshots of equal shape differing in exactly
one weight element make `same_weights` return `false`, naming the layer
and group.  The code reads both compared arrays from the second model
(source line 56, `m1d = m2layer[dim]`), so it reports a match instead:
evaluated at `wsnapA`/`wsnapB`, which differ in one weight element. -/
theorem same_weights_misses_single_change :
    wsnapA.layers.length = wsnapB.layers.length ∧
    wsnapA ≠ wsnapB ∧
    same_weights wsnapA wsnapB = (true, "weights match") := by
  decide

/-- C3: the claim says a model bound to a non-allow-listed optimizer is
blocked at the allow-list gate.  The code unpacks
`allowed, allowedmessage = check_optimizer_allowed(...)` although the
function returns `(reason, disclosive)`: `allowed` is a nonempty reason
string, Python truthiness makes `if not allowed` always false, and the
gate never blocks.  With the plain "SGD" identity and everything else
passing, `posthoc_check` returns the allow verdict. -/
theorem posthoc_skips_allowlist_gate :
    "SGD" ∉ allowed_optimizers ∧
    (check_optimizer_allowed stSGD).2 = true ∧
    posthoc_check acctC stSGD wsnapA = (allow_msg 1, false) := by
  decide

/-- C4: the claim (and the source annotation `-> tuple[bool, str]`) says
`check_optimizer_allowed` returns the boolean allowed-flag first and the
reason second.  Source line 262 returns `(reason, disclosive)` instead:
the reason string first, and a boolean whose `true` means NOT allowed
(disclosive), as these evaluations exhibit for an identity outside and an
identity inside the allow-list. -/
theorem check_optimizer_allowed_returns_swapped :
    check_optimizer_allowed stSGD = ("optimizer SGD is not allowed", true) ∧
    check_optimizer_allowed stC1 =
      ("optimizer tensorflow_privacy.DPKerasSGDOptimizer allowed", false) := by
  decide

/-- C5: the ok flag of `dp_epsilon_met` is true exactly when the epsilon
reported by the accountant is strictly below `min_epsilon`; in particular
when the reported epsilon equals `min_epsilon` the flag is false (the
boundary is excluded). -/
theorem dp_epsilon_met_threshold (acct : Accountant) (st : ModelState)
    (n b e : Nat) :
    ((dp_epsilon_met acct st n b e).1 = true ↔
      acct n b st.noise_multiplier e st.delta < st.min_epsilon) ∧
    ((dp_epsilon_met acct st n b e).2 = st.min_epsilon →
      (dp_epsilon_met acct st n b e).1 = false) := by
  dsimp [dp_epsilon_met]
  constructor
  · split
    · next hlt => simpa using hlt
    · next hge => simpa using hge
  · intro h
    rw [h]
    simp

/-- Witness for C5 at a concrete boundary input: the constant accountant
reports exactly `min_epsilon` (both are 10), and the flag is false. -/
theorem dp_epsilon_met_threshold_witness :
    (dp_epsilon_met acct10 stC1 5 5 5).1 = false :=
  (dp_epsilon_met_threshold acct10 stC1 5 5 5).2 (by decide)

/-- C6 counterexample: the claim says the rationale returned by
`check_epsilon` for `batch_size = 0` states that the substitution
occurred.  In the code the substitution notice is only printed: the
returned (ok, message) pair for `batch_size = 0` is identical to the one
for `batch_size = 1`, the returned message does not contain the
substitution notice, and the notice appears only among the printed
lines. -/
theorem check_epsilon_zero_msg_cex :
    (check_epsilon acctC stC1 100 0 5).ret =
      (check_epsilon acctC stC1 100 1 5).ret ∧
    contains_sub (check_epsilon acctC stC1 100 0 5).ret.2
      "setting batch_size" = false ∧
    (check_epsilon acctC stC1 100 0 5).printed.contains
      "Division by zero setting batch_size =1" = true := by
  decide

/-- C6 as amended: `check_epsilon` with `batch_size = 0` substitutes
`batch_size = 1` before applying the accountant (so no division by zero
can occur there), prints the diagnostic "Division by zero setting
batch_size =1" as its first output line, and returns the same (ok,
rationale) pair as a call with `batch_size = 1` — the substitution is
surfaced in the printed diagnostic, not in the returned rationale. -/
theorem check_epsilon_zero_batch (acct : Accountant) (st : ModelState)
    (n e : Nat) :
    (check_epsilon acct st n 0 e).st.current_epsilon =
      acct n 1 st.noise_multiplier e st.delta ∧
    (check_epsilon acct st n 0 e).printed.head? =
      some "Division by zero setting batch_size =1" ∧
    (check_epsilon acct st n 0 e).ret = (check_epsilon acct st n 1 e).ret :=
  ⟨rfl, rfl, rfl⟩

/-- C7: comparing any snapshot with itself reports equality in both
`same_configs` and `same_weights` (reflexivity); the hypothesis records
that each layer config is a Python dict, i.e. has distinct keys. -/
theorem compare_self_equal (S : ModelSnapshot)
    (h : ∀ l ∈ S.layers, ((l.config.map Prod.fst).Nodup)) :
    (same_configs S S).1 = true ∧ (same_weights S S).1 = true := by
  constructor
  · unfold same_configs
    rw [if_neg (by simp), same_configs_loop_self S.layers h 0]
  · unfold same_weights
    rw [if_neg (by simp), same_weights_loop_self S.layers 0]

/-- Witness for C7 at a concrete snapshot. -/
theorem compare_self_equal_witness :
    (same_configs wsnapA wsnapA).1 = true ∧
    (same_weights wsnapA wsnapA).1 = true :=
  compare_self_equal wsnapA (by decide)

/-- C8 counterexample: the claim says the fail-fast message states the
two layer counts.  The message is the fixed string "different numbers of
layers" for any differing counts — it is identical for a 1-vs-2 and a
1-vs-3 comparison and contains neither count. -/
theorem same_configs_count_msg_cex :
    same_configs wsnapA snap2 = (false, "different numbers of layers") ∧
    same_configs wsnapA snap3 = (false, "different numbers of layers") ∧
    snap2.layers.length ≠ snap3.layers.length ∧
    contains_sub (same_configs wsnapA snap2).2
      (toString wsnapA.layers.length) = false ∧
    contains_sub (same_configs wsnapA snap2).2
      (toString snap2.layers.length) = false := by
  decide

/-- C8 as amended: for every pair of snapshots whose layer counts differ,
`same_configs` fails fast with equal=false and the fixed message
"different numbers of layers" (which does not state the counts). -/
theorem same_configs_count_mismatch (m1 m2 : ModelSnapshot)
    (h : m1.layers.length ≠ m2.layers.length) :
    same_configs m1 m2 = (false, "different numbers of layers") := by
  unfold same_configs
  rw [if_pos h]

/-- Witness for the amended C8 at concrete snapshots with 1 and 2
layers. -/
theorem same_configs_count_mismatch_witness :
    wsnapA.layers.length ≠ snap2.layers.length ∧
    same_configs wsnapA snap2 = (false, "different numbers of layers") :=
  ⟨by decide, same_configs_count_mismatch wsnapA snap2 (by decide)⟩

/-- C9: in a state where every earlier gate passes and the recorded
`batch_size` is 0, `posthoc_check` reaches its budget step as
`budget_step acct st 0`: `dp_epsilon_met` hands the accountant the raw
recorded `batch_size` 0 (second conjunct), with no zero-batch
substitution on this call path — only `check_epsilon` substitutes 1
(third conjunct). -/
theorem posthoc_batch_zero_unguarded (acct : Accountant) (st : ModelState)
    (req s : ModelSnapshot)
    (hsnap : st.fit_snapshot = some s)
    (hflag : st.opt_has_flag = true)
    (hval : st.opt_flag_value = true)
    (hsave : st.saved_was_dpused = true)
    (hreason : st.saved_reason = dp_confirmed_reason)
    (heps : st.saved_epsilon = st.current_epsilon)
    (hb : st.batch_size = 0) :
    posthoc_check acct st req = budget_step acct st 0 ∧
    (dp_epsilon_met acct st st.num_samples 0 st.epochs).2 =
      acct st.num_samples 0 st.noise_multiplier st.epochs st.delta ∧
    (check_epsilon acct st st.num_samples 0 st.epochs).st.current_epsilon =
      acct st.num_samples 1 st.noise_multiplier st.epochs st.delta := by
  refine ⟨?_, rfl, rfl⟩
  have h1 := test_checkpoint_equality_fst s req
  have h2 := check_optimizer_allowed_fst_ne_empty st
  have h3 : check_DP_used st = (true, dp_confirmed_reason) := by
    unfold check_DP_used
    rw [hflag, hval]
    simp
  unfold posthoc_check
  rw [hsnap, hb]
  simp only [h1, h3, hsave, hreason, heps]
  simp [h2]

/-- Witness for C9 at the concrete zero-batch state `stC9`. -/
theorem posthoc_batch_zero_unguarded_witness :
    posthoc_check acctC stC9 wsnapA = budget_step acctC stC9 0 ∧
    (dp_epsilon_met acctC stC9 stC9.num_samples 0 stC9.epochs).2 =
      acctC stC9.num_samples 0 stC9.noise_multiplier stC9.epochs stC9.delta ∧
    (check_epsilon acctC stC9 stC9.num_samples 0 stC9.epochs).st.current_epsilon =
      acctC stC9.num_samples 1 stC9.noise_multiplier stC9.epochs stC9.delta :=
  posthoc_batch_zero_unguarded acctC stC9 wsnapA wsnapA rfl rfl rfl rfl rfl
    rfl rfl

/-- C10: `load` called with the default name "undefined" never exits its
prompt loop, for any amount of fuel and any stream of user inputs: the
loop tests `model_load_file` but its body assigns `model_save_file`. -/
theorem load_undefined_diverges (st : LoadState) (inputs : Nat → String)
    (fuel : Nat) : load "undefined" st inputs fuel = none := by
  unfold load
  exact load_loop_stuck inputs fuel 0 _ rfl
